import Mathlib

/-!
Verification development for the SR844 lock-in amplifier driver
(`src/stanford_research/SR844.py`), centred on the channel-buffer binary
decoder (`ChannelBuffer.get`), the setpoint/unit preparation
(`ChannelBuffer.prepare_buffer_readout`) and the readiness-flag state
transitions (`SR844._set_buffer_SR`, `SR844._set_ch_ratio`,
`SR844._set_ch_display`).

Modelling conventions:
* Bytes are natural numbers; `toInt16` reduces them modulo 256, so the
  model is total while agreeing with real byte buffers.
* numpy's floating point values are modelled as exact rationals.  The
  decoder's arithmetic (`mantissa * 2.0 ** (exponent - 124)`) is exact in
  float64 for the exponent range the instrument produces; the exact-rational
  idealisation is what the specification's formula denotes.
* numpy integer arithmetic on an `int16` array wraps modulo 2^16; the model
  keeps that wrap explicitly (`wrap16`).
* Instrument I/O (`buffer_npts`, the raw `TRCL` response, the `DDEF`
  query answers) is passed to each modelled method as explicit oracle
  arguments, and commands written to the instrument are returned as an
  explicit trace, so that "no transport interaction" is the statement that
  the trace is empty.
-/

/-- Little-endian signed 16-bit integer from two bytes, as numpy's
`dtype='<i2'` reads them.  Bytes are normalised modulo 256. -/
def toInt16 (lo hi : ℕ) : ℤ :=
  let u : ℕ := lo % 256 + 256 * (hi % 256)
  if u < 32768 then (u : ℤ) else (u : ℤ) - 65536

/-- `np.fromstring(raw, dtype='<i2')` on an even-length byte string:
consecutive byte pairs become little-endian signed 16-bit integers.
(The odd-length failure case is handled at the call site.) -/
def int16sOfBytes : List ℕ → List ℤ
  | lo :: hi :: rest => toInt16 lo hi :: int16sOfBytes rest
  | _ => []

/-- Python slice `[::2]`: the elements at even indices. -/
def everySecond : List α → List α
  | [] => []
  | [x] => [x]
  | x :: _ :: rest => x :: everySecond rest

/-- Wrap an integer into the signed 16-bit range, as numpy `int16`
arithmetic does on overflow. -/
def wrap16 (z : ℤ) : ℤ :=
  (z + 32768) % 65536 - 32768

/-- One decoded sample, as computed by line 109 of SR844.py:
`realdata[::2] * 2.0 ** (realdata[1::2] - 124)`.  The subtraction
`realdata[1::2] - 124` happens on the `int16` array, so it wraps
modulo 2^16 before the exponentiation. -/
def srValue (m e : ℤ) : ℚ :=
  (m : ℚ) * (2 : ℚ) ^ wrap16 (e - 124)

/-- numpy broadcasting of the elementwise product of two 1-d arrays:
equal lengths multiply pointwise; a length-1 operand is stretched to the
other operand's length; any other length mismatch is a `ValueError`
(modelled as `none`). -/
def broadcastMul (mant expo : List ℤ) : Option (List ℚ) :=
  if mant.length = expo.length then
    some (List.zipWith srValue mant expo)
  else
    match mant, expo with
    | [m], es => some (es.map (fun e => srValue m e))
    | ms, [e] => some (ms.map (fun m => srValue m e))
    | _, _ => none

/-- The error kinds surfaced by the modelled driver code.  `malformedFrame`
covers both `ValueError`s numpy can raise while parsing the raw buffer
(byte length not a multiple of the 2-byte element size; operands that
cannot be broadcast together); `notPrepared` and `countMismatch` are the
two `RuntimeError`s of `ChannelBuffer.get`, and `emptyBuffer` its
`ValueError` for a zero point count. -/
inductive SRError
  | malformedFrame
  | notPrepared
  | emptyBuffer
  | countMismatch
deriving DecidableEq

/-- Lines 108-109 of SR844.py: parse the raw `TRCL` response.
`realdata = np.fromstring(rawdata, dtype='<i2')` fails on an odd byte
count; `numbers = realdata[::2] * 2.0**(realdata[1::2]-124)` pairs the
even-index words (mantissas) with the odd-index words (exponents) under
numpy broadcasting. -/
def parseTRCL (raw : List ℕ) : Except SRError (List ℚ) :=
  if raw.length % 2 ≠ 0 then
    .error .malformedFrame
  else
    let realdata := int16sOfBytes raw
    match broadcastMul (everySecond realdata) (everySecond realdata.tail) with
    | some numbers => .ok numbers
    | none => .error .malformedFrame

/-- Modelled from the spec: the decode formula of section 4.1 -- interpret
the bytes as consecutive little-endian signed 16-bit integers, pair the
integer at each even position (mantissa) with its successor at the odd
position (exponent), and return `mantissa * 2 ^ (exponent - 124)` for each
pair, in buffer order.  This is the refinement target the code-level
`parseTRCL` is compared against. -/
def specDecode : List ℕ → List ℚ
  | b0 :: b1 :: b2 :: b3 :: rest =>
      (toInt16 b0 b1 : ℚ) * (2 : ℚ) ^ (toInt16 b2 b3 - 124) :: specDecode rest
  | _ => []

/-- The code-level decode, expressed on consecutive pairs of 16-bit words. -/
def pairValues : List ℤ → List ℚ
  | m :: e :: rest => srValue m e :: pairValues rest
  | _ => []

/-- The odd-index 16-bit words of a raw buffer: the exponent stream
`realdata[1::2]`. -/
def exponentWords (raw : List ℕ) : List ℤ :=
  everySecond (int16sOfBytes raw).tail

/-- The part of the `SR844` instrument state the modelled methods touch:
the two per-channel readiness flags initialised in `__init__`
(`_buffer1_ready`, `_buffer2_ready`), and the `_buffer_ready` attribute
that `_set_ch_ratio`/`_set_ch_display` assign.  The latter does not exist
until one of those setters runs (hence `Option`), and no code ever reads
it. -/
structure SR844State where
  buffer1_ready : Bool
  buffer2_ready : Bool
  buffer_ready : Option Bool
deriving DecidableEq

/-- Instrument state as left by `SR844.__init__` (lines 489-490). -/
def initState : SR844State :=
  { buffer1_ready := false, buffer2_ready := false, buffer_ready := none }

/-- The mutable fields of one `ChannelBuffer` parameter: its channel
number and the metadata that `prepare_buffer_readout` (re)computes.
`shape` models the first (only) component of the numpy shape tuple. -/
structure ChannelBuffer where
  channel : ℕ
  shape : ℕ
  unit : String
  setpoint_units : String
  setpoint_names : String
  setpoint_labels : String
  setpoints : List ℚ
deriving DecidableEq

/-- A `ChannelBuffer` as constructed by `ChannelBuffer.__init__`
(dummy shape `(1,)`, dummy unit `'V'`, time setpoint metadata, and no
setpoints computed yet). -/
def initBuffer (channel : ℕ) : ChannelBuffer :=
  { channel := channel
    shape := 1
    unit := "V"
    setpoint_units := "s"
    setpoint_names := "Time"
    setpoint_labels := "Time"
    setpoints := [] }

/-- The value of the `buffer_SR` parameter: one of the numeric rates of
its `val_mapping`, or the sentinel string `'Trigger'`. -/
inductive SampleRate
  | trigger
  | rate (r : ℚ)
deriving DecidableEq

/-- `np.linspace(0, stop, num)` with the default inclusive endpoint:
`num` evenly spaced values `stop * i / (num - 1)` for `i = 0, ..., num-1`
(`[0]` when `num = 1`, `[]` when `num = 0`), modelled exactly over ℚ. -/
def linspace (stop : ℚ) (num : ℕ) : List ℚ :=
  (List.range num).map (fun i => stop * (i : ℚ) / ((num : ℚ) - 1))

/-- `np.arange(0, n)`. -/
def arange (n : ℕ) : List ℚ :=
  (List.range n).map (fun i => (i : ℚ))

/-- `ChannelBuffer.prepare_buffer_readout` (lines 47-84).  Oracle inputs:
`N` is the `buffer_npts()` answer, `SR` the `buffer_SR()` answer, and
`ratio` / `disp` the strings returned by the channel's ratio and display
parameters.  The source guards the unit choice with
`params['ch{}_ratio'].get() is not 'none'` (line 72, with the comment
"YES, it should be: is not 'none' NOT is not None"); the compared value is
always one of the interned string constants of `_get_ch_ratio`, for which
CPython object identity coincides with string equality, so the guard is
modelled as string inequality.  Returns the updated parameter and
instrument state. -/
def prepare_buffer_readout (buf : ChannelBuffer) (st : SR844State)
    (N : ℕ) (SR : SampleRate) (ratio disp : String) :
    ChannelBuffer × SR844State :=
  let bufA :=
    match SR with
    | .trigger =>
        { buf with
            setpoint_units := ""
            setpoint_names := "trig_events"
            setpoint_labels := "Trigger event number"
            setpoints := arange N }
    | .rate r =>
        let dt := 1 / r
        { buf with
            setpoint_units := "s"
            setpoint_names := "Time"
            setpoint_labels := "Time"
            setpoints := linspace ((N : ℚ) * dt) N }
  let bufB := { bufA with shape := N }
  let bufC :=
    if ratio ≠ "none" then { bufB with unit := "%" }
    else if disp = "Phase" then { bufB with unit := "deg" }
    else { bufB with unit := "V" }
  let stA :=
    if buf.channel = 1 then { st with buffer1_ready := true }
    else { st with buffer2_ready := true }
  (bufC, stA)

/-- `ChannelBuffer.get` (lines 86-112).  Oracle inputs: `npts` is the
`buffer_npts()` answer at read time and `raw` the raw bytes returned by
`visa_handle.read_raw()` after the `TRCL` write.  The second component is
the trace of instrument interactions issued, in order; it is empty exactly
when the method fails before touching the transport.  Note the final check
compares the prepared `shape` against `npts`; the length of the decoded
array is not inspected. -/
def ChannelBuffer.get (buf : ChannelBuffer) (st : SR844State)
    (npts : ℕ) (raw : List ℕ) :
    Except SRError (List ℚ) × List String :=
  let ready := if buf.channel = 1 then st.buffer1_ready else st.buffer2_ready
  if ready = false then
    (.error .notPrepared, [])
  else if npts = 0 then
    (.error .emptyBuffer, ["SPTS ?"])
  else
    let trace := ["SPTS ?",
                  "TRCL ? " ++ toString buf.channel ++ ", 0, " ++ toString npts]
    match parseTRCL raw with
    | .error e => (.error e, trace)
    | .ok numbers =>
        if buf.shape ≠ npts then (.error .countMismatch, trace)
        else (.ok numbers, trace)

/-- `SR844._set_buffer_SR` (lines 494-497): write the `SRAT` command and
clear both readiness flags.  Returns the new state and the command trace. -/
def set_buffer_SR (st : SR844State) (SR : ℕ) : SR844State × List String :=
  ({ st with buffer1_ready := false, buffer2_ready := false },
   ["SRAT " ++ toString SR])

/-- Python-level exceptions raised by the channel configuration setters. -/
inductive PyError
  | attributeError
  | keyError
  | valueError
deriving DecidableEq

/-- `SR844._set_ch_ratio` (lines 515-532).  `val_mapping[channel]` is a
*list* for both channels, and line 526 calls `.keys()` on it, which raises
`AttributeError` before any validation, instrument write, or flag update;
a channel outside the mapping raises `KeyError` at the dict lookup.  The
method therefore never succeeds. -/
def set_ch_ratio (st : SR844State) (channel : ℕ) (ratio : String) :
    Except PyError (SR844State × List String) :=
  if channel = 1 ∨ channel = 2 then .error .attributeError
  else .error .keyError

/-- The `val_mapping` dict of `_set_ch_display` for channel 1. -/
def ch1_display_map : List (String × ℕ) :=
  [("X", 0), ("R", 1), ("X Noise", 2), ("Aux In 1", 3), ("Aux In 2", 4)]

/-- The `val_mapping` dict of `_set_ch_display` for channel 2. -/
def ch2_display_map : List (String × ℕ) :=
  [("Y", 0), ("Phase", 1), ("Y Noise", 2), ("Aux In 3", 3), ("Aux In 4", 4)]

/-- `SR844._set_ch_display` (lines 549-568).  Oracle input `ratio_val` is
the second field of the instrument's `DDEF ?` answer.  On success the
method writes the combined `DDEF` command and assigns
`self._buffer_ready = False` -- an attribute nothing reads -- leaving
`_buffer1_ready` and `_buffer2_ready` untouched. -/
def set_ch_display (st : SR844State) (channel : ℕ) (disp : String)
    (ratio_val : ℤ) : Except PyError (SR844State × List String) :=
  if channel = 1 ∨ channel = 2 then
    let m := if channel = 1 then ch1_display_map else ch2_display_map
    match m.lookup disp with
    | none => .error .valueError
    | some d =>
        .ok ({ st with buffer_ready := some false },
             ["DDEF ? " ++ toString channel,
              "DDEF " ++ toString channel ++ ", " ++ toString d ++ ", "
                ++ toString ratio_val])
  else .error .keyError

theorem int16sOfBytes_length : ∀ l : List ℕ, (int16sOfBytes l).length = l.length / 2
  | [] => by simp [int16sOfBytes]
  | [_] => by simp [int16sOfBytes]
  | _ :: _ :: rest => by
      simp only [int16sOfBytes, List.length_cons, int16sOfBytes_length rest]
      omega

theorem everySecond_length : ∀ l : List α, (everySecond l).length = (l.length + 1) / 2
  | [] => by simp [everySecond]
  | [_] => by simp [everySecond]
  | _ :: _ :: rest => by
      simp only [everySecond, List.length_cons, everySecond_length rest]
      omega

theorem everySecond_cons_tail (x : α) (l : List α) :
    everySecond (x :: l) = x :: everySecond l.tail := by
  cases l with
  | nil => rfl
  | cons y rest => rfl

theorem zipWith_everySecond : ∀ ws : List ℤ,
    List.zipWith srValue (everySecond ws) (everySecond ws.tail) = pairValues ws
  | [] => rfl
  | [_] => rfl
  | m :: e :: rest => by
      rw [show everySecond (m :: e :: rest) = m :: everySecond rest from rfl]
      rw [show (m :: e :: rest).tail = e :: rest from rfl, everySecond_cons_tail]
      simp only [List.zipWith_cons_cons, zipWith_everySecond rest, pairValues]

theorem toInt16_bounds (lo hi : ℕ) :
    -32768 ≤ toInt16 lo hi ∧ toInt16 lo hi < 32768 := by
  have h1 : lo % 256 < 256 := Nat.mod_lt _ (by norm_num)
  have h2 : hi % 256 < 256 := Nat.mod_lt _ (by norm_num)
  show -32768 ≤ (if lo % 256 + 256 * (hi % 256) < 32768
      then ((lo % 256 + 256 * (hi % 256) : ℕ) : ℤ)
      else ((lo % 256 + 256 * (hi % 256) : ℕ) : ℤ) - 65536) ∧
    (if lo % 256 + 256 * (hi % 256) < 32768
      then ((lo % 256 + 256 * (hi % 256) : ℕ) : ℤ)
      else ((lo % 256 + 256 * (hi % 256) : ℕ) : ℤ) - 65536) < 32768
  split <;> omega

theorem wrap16_eq_self (z : ℤ) (h1 : -32768 ≤ z) (h2 : z < 32768) :
    wrap16 z = z := by
  unfold wrap16
  omega

theorem exponentWords_cons4 (b0 b1 b2 b3 : ℕ) (rest : List ℕ) :
    exponentWords (b0 :: b1 :: b2 :: b3 :: rest) =
      toInt16 b2 b3 :: exponentWords rest := by
  show everySecond (toInt16 b2 b3 :: int16sOfBytes rest) = _
  rw [everySecond_cons_tail]
  rfl

theorem parseTRCL_mod4 (raw : List ℕ) (h4 : raw.length % 4 = 0) :
    parseTRCL raw = .ok (pairValues (int16sOfBytes raw)) := by
  have h2 : raw.length % 2 = 0 := by omega
  have hlen : (everySecond (int16sOfBytes raw)).length =
      (everySecond (int16sOfBytes raw).tail).length := by
    rw [everySecond_length, everySecond_length, List.length_tail,
        int16sOfBytes_length]
    omega
  have hb : broadcastMul (everySecond (int16sOfBytes raw))
      (everySecond (int16sOfBytes raw).tail) =
        some (pairValues (int16sOfBytes raw)) := by
    unfold broadcastMul
    rw [if_pos hlen, zipWith_everySecond]
  unfold parseTRCL
  rw [if_neg (by omega)]
  simp only [hb]

theorem pairValues_spec : ∀ raw : List ℕ,
    (∀ e ∈ exponentWords raw, -32644 ≤ e) →
    pairValues (int16sOfBytes raw) = specDecode raw
  | [], _ => rfl
  | [_], _ => rfl
  | [_, _], _ => rfl
  | [_, _, _], _ => rfl
  | b0 :: b1 :: b2 :: b3 :: rest, h => by
      have hmem : toInt16 b2 b3 ∈ exponentWords (b0 :: b1 :: b2 :: b3 :: rest) := by
        rw [exponentWords_cons4]; exact List.mem_cons_self _ _
      have h1 : -32644 ≤ toInt16 b2 b3 := h _ hmem
      have h2 : ∀ e ∈ exponentWords rest, -32644 ≤ e := by
        intro e he
        refine h e ?_
        rw [exponentWords_cons4]
        exact List.mem_cons_of_mem _ he
      show pairValues (toInt16 b0 b1 :: toInt16 b2 b3 :: int16sOfBytes rest) = _
      unfold pairValues specDecode
      rw [pairValues_spec rest h2]
      unfold srValue
      rw [wrap16_eq_self (toInt16 b2 b3 - 124)
            (by have := toInt16_bounds b2 b3; omega)
            (by have := toInt16_bounds b2 b3; omega)]

/-- C1 (amended): for every raw byte buffer whose length is a multiple of 4
and all of whose odd-position 16-bit words (the exponents) are at least
-32644, decoding interprets the bytes as consecutive little-endian signed
16-bit integers, takes even positions as mantissas and odd positions as
exponents, and returns, in buffer order, `mantissas[i] * 2^(exponents[i] - 124)`.
(The bound excludes the exponents for which the numpy `int16` subtraction
`exponent - 124` wraps modulo 2^16.) -/
theorem c1_decode_refines_spec (raw : List ℕ) (h4 : raw.length % 4 = 0)
    (hexp : ∀ e ∈ exponentWords raw, -32644 ≤ e) :
    parseTRCL raw = .ok (specDecode raw) := by
  rw [parseTRCL_mod4 raw h4, pairValues_spec raw hexp]

/-- Witness for C1: an 8-byte buffer decoding to
`[1 * 2^(124-124), -2 * 2^(130-124)] = [1, -128]`. -/
theorem c1_decode_refines_spec_witness :
    ([1, 0, 124, 0, 254, 255, 130, 0] : List ℕ).length % 4 = 0 ∧
    (∀ e ∈ exponentWords [1, 0, 124, 0, 254, 255, 130, 0], -32644 ≤ e) ∧
    parseTRCL [1, 0, 124, 0, 254, 255, 130, 0] =
      .ok (specDecode [1, 0, 124, 0, 254, 255, 130, 0]) :=
  ⟨by decide, by decide,
   c1_decode_refines_spec [1, 0, 124, 0, 254, 255, 130, 0] (by decide) (by decide)⟩

/-- C1 counterexample: the buffer `[1, 0, 0, 128]` encodes mantissa 1 and
exponent -32768; the claimed value is `2^(-32892)`, but the `int16`
subtraction wraps and the code produces `2^32644`. -/
theorem c1_counterexample :
    ([1, 0, 0, 128] : List ℕ).length % 4 = 0 ∧
    parseTRCL [1, 0, 0, 128] ≠ .ok (specDecode [1, 0, 0, 128]) := by
  refine ⟨by decide, ?_⟩
  have hcode : parseTRCL [1, 0, 0, 128] =
      .ok [srValue 1 (-32768)] := rfl
  have hspec : specDecode [1, 0, 0, 128] =
      [((1 : ℤ) : ℚ) * (2 : ℚ) ^ ((-32768 : ℤ) - 124)] := rfl
  have hval : srValue 1 (-32768) = (2 : ℚ) ^ (32644 : ℤ) := by
    unfold srValue
    rw [show wrap16 ((-32768 : ℤ) - 124) = (32644 : ℤ) from by decide,
        Int.cast_one, one_mul]
  rw [hcode, hspec]
  intro hcontra
  have heq : (2 : ℚ) ^ (32644 : ℤ) = (2 : ℚ) ^ ((-32892 : ℤ)) := by
    have h1 : srValue 1 (-32768) = ((1 : ℤ) : ℚ) * (2 : ℚ) ^ ((-32768 : ℤ) - 124) := by
      simpa using hcontra
    rw [hval, Int.cast_one, one_mul,
        show ((-32768 : ℤ) - 124) = (-32892 : ℤ) from by decide] at h1
    exact h1
  have hlt : (2 : ℚ) ^ ((-32892 : ℤ)) < (2 : ℚ) ^ (32644 : ℤ) :=
    zpow_lt_zpow_right₀ one_lt_two (by decide)
  exact absurd heq (ne_of_gt hlt)

theorem prepare_setpoints (buf : ChannelBuffer) (st : SR844State)
    (N : ℕ) (SR : SampleRate) (ratio disp : String) :
    (prepare_buffer_readout buf st N SR ratio disp).1.setpoints =
      match SR with
      | .trigger => arange N
      | .rate r => linspace ((N : ℚ) * (1 / r)) N := by
  unfold prepare_buffer_readout
  cases SR <;> dsimp only <;> split <;> first | rfl | (split <;> rfl)

theorem prepare_unit (buf : ChannelBuffer) (st : SR844State)
    (N : ℕ) (SR : SampleRate) (ratio disp : String) :
    (prepare_buffer_readout buf st N SR ratio disp).1.unit =
      if ratio ≠ "none" then "%"
      else if disp = "Phase" then "deg"
      else "V" := by
  unfold prepare_buffer_readout
  cases SR <;> dsimp only <;> split <;> first | rfl | (split <;> rfl)

theorem prepare_flags (buf : ChannelBuffer) (st : SR844State)
    (N : ℕ) (SR : SampleRate) (ratio disp : String) :
    (prepare_buffer_readout buf st N SR ratio disp).2 =
      if buf.channel = 1 then { st with buffer1_ready := true }
      else { st with buffer2_ready := true } := rfl

theorem broadcastMul_eq_none (mant expo : List ℤ)
    (hab : mant.length ≠ expo.length)
    (ha : mant.length ≠ 1) (hb : expo.length ≠ 1) :
    broadcastMul mant expo = none := by
  unfold broadcastMul
  rw [if_neg hab]
  cases mant with
  | nil =>
      cases expo with
      | nil => exact absurd rfl hab
      | cons e es =>
          cases es with
          | nil => exact absurd rfl hb
          | cons e2 es2 => rfl
  | cons m ms =>
      cases ms with
      | nil => exact absurd rfl ha
      | cons m2 ms2 =>
          cases expo with
          | nil => rfl
          | cons e es =>
              cases es with
              | nil => exact absurd rfl hb
              | cons e2 es2 => rfl

theorem srValue_at_124 (m : ℤ) : srValue m 124 = (m : ℚ) := by
  unfold srValue
  rw [show wrap16 (124 - 124) = 0 from by decide, zpow_zero, mul_one]

/-- C2 (amended): for every count `N ≥ 1` and numeric sample rate `SR`, the
setpoint axis is `np.linspace(0, N/SR, N)` with its default *inclusive*
endpoint: `N` evenly spaced values `(N/SR) * i / (N-1)` from `0` to `N/SR`,
with spacing `N / (SR * (N-1))` rather than the claimed `1/SR`. -/
theorem c2_setpoints_amended (buf : ChannelBuffer) (st : SR844State)
    (N : ℕ) (r : ℚ) (ratio disp : String) (h : 1 ≤ N) :
    (prepare_buffer_readout buf st N (.rate r) ratio disp).1.setpoints =
      (List.range N).map (fun i => ((N : ℚ) / r) * (i : ℚ) / ((N : ℚ) - 1)) := by
  rw [prepare_setpoints]
  show linspace ((N : ℚ) * (1 / r)) N = _
  unfold linspace
  simp only [mul_one_div]

/-- Witness for C2 (amended) at `N = 4`, `SR = 2`. -/
theorem c2_amended_witness :
    1 ≤ 4 ∧
    (prepare_buffer_readout (initBuffer 1) initState 4 (.rate 2) "X" "X").1.setpoints =
      (List.range 4).map (fun i => ((4 : ℚ) / 2) * (i : ℚ) / ((4 : ℚ) - 1)) :=
  ⟨by decide, c2_setpoints_amended (initBuffer 1) initState 4 2 "X" "X" (by decide)⟩

/-- C2 counterexample: at `N = 4`, `SR = 2.0` the code produces
`[0, 2/3, 4/3, 2]` (endpoint `4/2.0 = 2.0` included), not the claimed
`[0.0, 0.5, 1.0, 1.5]`. -/
theorem c2_counterexample :
    (prepare_buffer_readout (initBuffer 1) initState 4 (.rate 2) "X" "X").1.setpoints
      = [0, 2/3, 4/3, 2] ∧
    (prepare_buffer_readout (initBuffer 1) initState 4 (.rate 2) "X" "X").1.setpoints
      ≠ [0, 1/2, 1, 3/2] := by
  have hs : (prepare_buffer_readout (initBuffer 1) initState 4 (.rate 2) "X" "X").1.setpoints
      = [0, 2/3, 4/3, 2] := by
    rw [prepare_setpoints]
    show linspace ((4 : ℚ) * (1 / 2)) 4 = _
    norm_num [linspace, List.range_succ]
  refine ⟨hs, ?_⟩
  rw [hs]
  norm_num

/-- C3 (amended): decoding a byte buffer whose length is not a multiple of
4 fails with a malformed-frame error, *except* for lengths 2 and 6: an odd
length fails the int16 conversion, and an even length `≡ 2 (mod 4)` fails
numpy broadcasting only from length 10 on (lengths 2 and 6 slip through
because a length-1 array broadcasts). -/
theorem c3_malformed_amended (raw : List ℕ) (h4 : raw.length % 4 ≠ 0)
    (h2 : raw.length ≠ 2) (h6 : raw.length ≠ 6) :
    parseTRCL raw = .error .malformedFrame := by
  by_cases hpar : raw.length % 2 = 0
  · have hw := int16sOfBytes_length raw
    have hnone : broadcastMul (everySecond (int16sOfBytes raw))
        (everySecond (int16sOfBytes raw).tail) = none := by
      apply broadcastMul_eq_none
      · rw [everySecond_length, everySecond_length, List.length_tail, hw]
        omega
      · rw [everySecond_length, hw]
        omega
      · rw [everySecond_length, List.length_tail, hw]
        omega
    unfold parseTRCL
    rw [if_neg (not_not_intro hpar)]
    simp only [hnone]
  · unfold parseTRCL
    rw [if_pos hpar]

/-- Witness for C3 (amended): a 10-byte buffer (mantissa/exponent arrays of
lengths 3 and 2, which numpy cannot broadcast) fails. -/
theorem c3_amended_witness :
    (([0, 0, 0, 0, 0, 0, 0, 0, 0, 0] : List ℕ).length % 4 ≠ 0 ∧
     ([0, 0, 0, 0, 0, 0, 0, 0, 0, 0] : List ℕ).length ≠ 2 ∧
     ([0, 0, 0, 0, 0, 0, 0, 0, 0, 0] : List ℕ).length ≠ 6) ∧
    parseTRCL [0, 0, 0, 0, 0, 0, 0, 0, 0, 0] = .error .malformedFrame :=
  ⟨⟨by decide, by decide, by decide⟩,
   c3_malformed_amended [0, 0, 0, 0, 0, 0, 0, 0, 0, 0]
     (by decide) (by decide) (by decide)⟩

/-- C3 counterexample: the 6-byte buffer (length not a multiple of 4,
explicitly listed in the claim) decodes *without error* to two values --
its single exponent word 124 broadcasts over both mantissas 1 and 2 --
instead of failing with a malformed-frame error. -/
theorem c3_counterexample :
    ([1, 0, 124, 0, 2, 0] : List ℕ).length % 4 ≠ 0 ∧
    parseTRCL [1, 0, 124, 0, 2, 0] = .ok [1, 2] := by
  refine ⟨by decide, ?_⟩
  have h : parseTRCL [1, 0, 124, 0, 2, 0] = .ok [srValue 1 124, srValue 2 124] := rfl
  rw [h, srValue_at_124, srValue_at_124]
  norm_num

/-- C4 (amended): with the channel ready and a nonzero reported count, the
read fails exactly when the count prepared into the parameter's shape
differs from the read-time reported count `npts`; the *number of decoded
values* is never compared against `npts`, so when the shape matches, a
decode of any length is returned as-is. -/
theorem c4_shape_check_amended (buf : ChannelBuffer) (st : SR844State)
    (npts : ℕ) (raw : List ℕ) (vals : List ℚ)
    (hready : (if buf.channel = 1 then st.buffer1_ready else st.buffer2_ready) = true)
    (hnpts : npts ≠ 0)
    (hparse : parseTRCL raw = .ok vals) :
    (buf.shape ≠ npts → (buf.get st npts raw).1 = .error .countMismatch) ∧
    (buf.shape = npts → (buf.get st npts raw).1 = .ok vals) := by
  unfold ChannelBuffer.get
  dsimp only
  rw [hready]
  constructor <;> intro hm <;> simp [hnpts, hparse, hm]

/-- Witness for C4 (amended): shape 3 ≠ npts 2 fails; shape 2 = npts 2
returns the decode unchecked. -/
theorem c4_amended_witness :
    (({ initBuffer 1 with shape := 3 }).get
        { buffer1_ready := true, buffer2_ready := false, buffer_ready := none }
        2 [1, 0, 124, 0]).1 = .error .countMismatch ∧
    (({ initBuffer 1 with shape := 2 }).get
        { buffer1_ready := true, buffer2_ready := false, buffer_ready := none }
        2 [1, 0, 124, 0, 2, 0, 124, 0]).1 = .ok [srValue 1 124, srValue 2 124] :=
  ⟨(c4_shape_check_amended _ _ 2 [1, 0, 124, 0] [srValue 1 124]
     (by decide) (by decide) rfl).1 (by decide),
   (c4_shape_check_amended _ _ 2 [1, 0, 124, 0, 2, 0, 124, 0]
     [srValue 1 124, srValue 2 124] (by decide) (by decide) rfl).2 rfl⟩

/-- C4 counterexample: channel prepared with shape 2, instrument reports
`npts = 2`, but the raw buffer holds only one sample; the read returns the
single decoded value (length 1 ≠ 2) with no error -- the decoded count is
silently wrong, never validated. -/
theorem c4_counterexample :
    (({ initBuffer 1 with shape := 2 }).get
        { buffer1_ready := true, buffer2_ready := false, buffer_ready := none }
        2 [1, 0, 124, 0]).1 = .ok [1] ∧
    ([(1 : ℚ)]).length ≠ 2 := by
  refine ⟨?_, by decide⟩
  have h : (({ initBuffer 1 with shape := 2 }).get
      { buffer1_ready := true, buffer2_ready := false, buffer_ready := none }
      2 [1, 0, 124, 0]).1 = .ok [srValue 1 124] := rfl
  rw [h, srValue_at_124]
  norm_num

/-- C5: preparing the buffer sets the unit from the channel configuration:
ratio `'none'` with a non-`'Phase'` display gives volts, ratio `'none'`
with display `'Phase'` gives degrees, and any other ratio gives percent. -/
theorem c5_unit_selection (buf : ChannelBuffer) (st : SR844State)
    (N : ℕ) (SR : SampleRate) (ratio disp : String) :
    (ratio = "none" → disp ≠ "Phase" →
      (prepare_buffer_readout buf st N SR ratio disp).1.unit = "V") ∧
    (ratio = "none" → disp = "Phase" →
      (prepare_buffer_readout buf st N SR ratio disp).1.unit = "deg") ∧
    (ratio ≠ "none" →
      (prepare_buffer_readout buf st N SR ratio disp).1.unit = "%") := by
  refine ⟨fun h1 h2 => ?_, fun h1 h2 => ?_, fun h1 => ?_⟩
  · rw [prepare_unit, if_neg (not_not_intro h1), if_neg h2]
  · rw [prepare_unit, if_neg (not_not_intro h1), if_pos h2]
  · rw [prepare_unit, if_pos h1]

/-- Witness for C5: the three unit cases at concrete configurations. -/
theorem c5_witness :
    (prepare_buffer_readout (initBuffer 1) initState 4 .trigger "none" "X").1.unit
      = "V" ∧
    (prepare_buffer_readout (initBuffer 1) initState 4 .trigger "none" "Phase").1.unit
      = "deg" ∧
    (prepare_buffer_readout (initBuffer 1) initState 4 .trigger "X" "X").1.unit
      = "%" :=
  ⟨(c5_unit_selection (initBuffer 1) initState 4 .trigger "none" "X").1
     rfl (by decide),
   (c5_unit_selection (initBuffer 1) initState 4 .trigger "none" "Phase").2.1
     rfl rfl,
   (c5_unit_selection (initBuffer 1) initState 4 .trigger "X" "X").2.2
     (by decide)⟩

/-- C6: with the requested channel's readiness flag unset, `get` fails with
the not-prepared error and issues no instrument command at all (empty
trace), for every reported point count and every raw buffer. -/
theorem c6_not_prepared (buf : ChannelBuffer) (st : SR844State)
    (npts : ℕ) (raw : List ℕ)
    (h : (if buf.channel = 1 then st.buffer1_ready else st.buffer2_ready) = false) :
    buf.get st npts raw = (.error .notPrepared, []) := by
  unfold ChannelBuffer.get
  dsimp only
  rw [h]
  rfl

/-- Witness for C6: a freshly initialised instrument is not prepared. -/
theorem c6_witness :
    (initBuffer 1).get initState 5 [1, 0, 124, 0] = (.error .notPrepared, []) :=
  c6_not_prepared (initBuffer 1) initState 5 [1, 0, 124, 0] rfl

/-- C7: with the channel ready but the instrument reporting zero stored
points, `get` fails with the empty-buffer error regardless of the raw
buffer contents, never returning an empty sample list. -/
theorem c7_empty_buffer (buf : ChannelBuffer) (st : SR844State) (raw : List ℕ)
    (h : (if buf.channel = 1 then st.buffer1_ready else st.buffer2_ready) = true) :
    buf.get st 0 raw = (.error .emptyBuffer, ["SPTS ?"]) := by
  unfold ChannelBuffer.get
  dsimp only
  rw [h]
  rfl

/-- Witness for C7 on a prepared channel 1. -/
theorem c7_witness :
    (initBuffer 1).get
      { buffer1_ready := true, buffer2_ready := false, buffer_ready := none }
      0 [1, 0, 124, 0] = (.error .emptyBuffer, ["SPTS ?"]) :=
  c7_empty_buffer (initBuffer 1)
    { buffer1_ready := true, buffer2_ready := false, buffer_ready := none }
    [1, 0, 124, 0] rfl

/-- C8: setting the buffer sample rate clears the readiness flags of both
channels, so every subsequent `get` (on any channel, with any reported
count and raw data) fails with the not-prepared error until the channel is
prepared again. -/
theorem c8_set_SR_clears_readiness (st : SR844State) (SR : ℕ) :
    (set_buffer_SR st SR).1.buffer1_ready = false ∧
    (set_buffer_SR st SR).1.buffer2_ready = false ∧
    ∀ (buf : ChannelBuffer) (npts : ℕ) (raw : List ℕ),
      (buf.get (set_buffer_SR st SR).1 npts raw).1 = .error .notPrepared := by
  refine ⟨rfl, rfl, ?_⟩
  intro buf npts raw
  unfold ChannelBuffer.get set_buffer_SR
  dsimp only
  rw [ite_self]
  rfl

/-- C9: evaluation of the code at the failing input.  Changing a channel's
configuration does *not* clear its readiness flag: `_set_ch_ratio` always
dies with `AttributeError` (line 526 calls `.keys()` on a list), and
`_set_ch_display` succeeds but assigns the never-read `_buffer_ready`
attribute instead of `_buffer1_ready`, so a read on channel 1 immediately
after a display change still succeeds instead of failing not-prepared. -/
theorem c9_config_change_keeps_readiness :
    set_ch_ratio
        { buffer1_ready := true, buffer2_ready := false, buffer_ready := none }
        1 "X" = .error .attributeError ∧
    set_ch_display
        { buffer1_ready := true, buffer2_ready := false, buffer_ready := none }
        1 "X" 0
      = .ok ({ buffer1_ready := true, buffer2_ready := false,
               buffer_ready := some false },
             ["DDEF ? 1", "DDEF 1, 0, 0"]) ∧
    ((initBuffer 1).get
        { buffer1_ready := true, buffer2_ready := false, buffer_ready := some false }
        1 [1, 0, 124, 0]).1 = .ok [1] := by
  refine ⟨rfl, rfl, ?_⟩
  have h : ((initBuffer 1).get
      { buffer1_ready := true, buffer2_ready := false, buffer_ready := some false }
      1 [1, 0, 124, 0]).1 = .ok [srValue 1 124] := rfl
  rw [h, srValue_at_124]
  norm_num

/-- C10: preparing the readout for a channel sets exactly that channel's
readiness flag and leaves the other channel's flag unchanged. -/
theorem c10_prepare_frame (buf : ChannelBuffer) (st : SR844State)
    (N : ℕ) (SR : SampleRate) (ratio disp : String) :
    (buf.channel = 1 →
      (prepare_buffer_readout buf st N SR ratio disp).2.buffer1_ready = true ∧
      (prepare_buffer_readout buf st N SR ratio disp).2.buffer2_ready
        = st.buffer2_ready) ∧
    (buf.channel = 2 →
      (prepare_buffer_readout buf st N SR ratio disp).2.buffer2_ready = true ∧
      (prepare_buffer_readout buf st N SR ratio disp).2.buffer1_ready
        = st.buffer1_ready) := by
  constructor
  · intro h
    rw [prepare_flags, if_pos h]
    exact ⟨rfl, rfl⟩
  · intro h
    rw [prepare_flags, if_neg (by omega)]
    exact ⟨rfl, rfl⟩

/-- Witness for C10: preparing channel 1 keeps channel 2 ready; preparing
channel 2 keeps channel 1 ready. -/
theorem c10_witness :
    ((prepare_buffer_readout (initBuffer 1)
        { buffer1_ready := false, buffer2_ready := true, buffer_ready := none }
        3 .trigger "X" "X").2.buffer1_ready = true ∧
     (prepare_buffer_readout (initBuffer 1)
        { buffer1_ready := false, buffer2_ready := true, buffer_ready := none }
        3 .trigger "X" "X").2.buffer2_ready = true) ∧
    ((prepare_buffer_readout (initBuffer 2)
        { buffer1_ready := true, buffer2_ready := false, buffer_ready := none }
        3 .trigger "X" "X").2.buffer2_ready = true ∧
     (prepare_buffer_readout (initBuffer 2)
        { buffer1_ready := true, buffer2_ready := false, buffer_ready := none }
        3 .trigger "X" "X").2.buffer1_ready = true) :=
  ⟨(c10_prepare_frame (initBuffer 1)
      { buffer1_ready := false, buffer2_ready := true, buffer_ready := none }
      3 .trigger "X" "X").1 rfl,
   (c10_prepare_frame (initBuffer 2)
      { buffer1_ready := true, buffer2_ready := false, buffer_ready := none }
      3 .trigger "X" "X").2 rfl⟩
